import Mathlib

/-!
# Verification of the risc0 dev-mode prover core

A shallow embedding of the development-mode proving backend
(`risc0/zkvm/src/host/server/prove/dev_mode.rs`) together with the receipt
data model it operates on, and proofs of the behavioural properties the
specification states about it.

Machine integers (u32 words, byte values) are modelled as `Nat`; none of the
modelled code performs wrapping arithmetic.  Fallible Rust code returning
`anyhow::Result` is modelled with `Except DevError`; a `panic!` /
`unimplemented!` is modelled as returning the dedicated `DevError.unsupported`
error (the operation fails and never produces a value).  The `eprintln!`
side effect is modelled by an explicit counter of emitted warnings carried in
the operation result (`DevOutput.warnings`).
-/

namespace Risc0

/-- A cryptographic digest, modelled as its list of u32 words. -/
abbrev Digest := List Nat

/-- Exit condition of a segment or session
(`ExitCode` in the zkvm: `Halted(code)`, `Paused(code)`, `SystemSplit`). -/
inductive ExitCode where
  | Halted (code : Nat)
  | Paused (code : Nat)
  | SystemSplit
  deriving DecidableEq

/-- The public statement a proof attests to: pre/post state digests, exit
condition, input digest, journal (output) digest, and the ordered list of
unresolved assumption digests. -/
structure Claim where
  pre : Digest
  post : Digest
  exit_code : ExitCode
  input : Digest
  output : Digest
  assumptions : List Digest
  deriving DecidableEq

/-- The guest program's committed public output bytes. -/
structure Journal where
  bytes : List Nat
  deriving DecidableEq

/-- A bounded slice of a session's trace: its dense zero-based index, its
exit condition, and (standing in for the resolved trace handle) the claim its
proof would attest to. -/
structure Segment where
  index : Nat
  exit_code : ExitCode
  claim : Claim
  deriving DecidableEq

/-- Proof of one segment's correctness: the segment index, the cryptographic
seal (proof payload, a list of words), the claim, and the exit condition. -/
structure SegmentReceipt where
  index : Nat
  «seal» : List Nat
  claim : Claim
  exit_code : ExitCode
  deriving DecidableEq

/-- A single recursive proof: a seal plus the claim it attests to. -/
structure SuccinctReceipt where
  «seal» : List Nat
  claim : Claim
  deriving DecidableEq

/-- A SNARK-wrapped proof: a seal plus the claim it attests to. -/
structure CompactReceipt where
  «seal» : List Nat
  claim : Claim
  deriving DecidableEq

/-- The tagged union of proof representations: a list of per-segment proofs,
a single recursive proof, a SNARK-wrapped proof, or the unproven dev-mode
stub `Fake`, which carries a claim and no cryptographic material. -/
inductive InnerReceipt where
  | Composite (segments : List SegmentReceipt)
  | Succinct (receipt : SuccinctReceipt)
  | Compact (receipt : CompactReceipt)
  | Fake (claim : Claim)
  deriving DecidableEq

/-- The user-facing artifact: an inner proof plus the public journal. -/
structure Receipt where
  inner : InnerReceipt
  journal : Journal
  deriving DecidableEq

/-- `Receipt::new(inner, journal_bytes)`: wraps the journal bytes. -/
def Receipt.new (inner : InnerReceipt) (bytes : List Nat) : Receipt :=
  { inner := inner, journal := { bytes := bytes } }

/-- Modelled from the spec: `Receipt::claim` (defined in `receipt.rs`, which
is outside the shown sources) recovers the receipt's `Claim` from its inner
variant.  A `Fake` receipt carries its claim directly, as do `Succinct` and
`Compact` receipts; for a `Composite` receipt the claim is the one attested
by its final segment receipt (`none` when the segment list is empty). -/
def InnerReceipt.claim : InnerReceipt → Option Claim
  | .Composite segments => (segments.getLast?).map SegmentReceipt.claim
  | .Succinct r => some r.claim
  | .Compact r => some r.claim
  | .Fake c => some c

/-- `receipt.claim()`. -/
def Receipt.claim (r : Receipt) : Option Claim :=
  r.inner.claim

/-- Execution statistics of a session (`session.stats()`). -/
structure SessionStats where
  segments : Nat
  total_cycles : Nat
  user_cycles : Nat
  deriving DecidableEq

/-- Error taxonomy of the modelled operations:
`devModeDisabled` is the `bail!` raised when the `disable-dev-mode` feature
is set; `unsupported` models the `unimplemented!` panic of the structurally
unsupported stub operations; `claimUnavailable` is a failure of
`session.claim()` / `receipt.claim()`. -/
inductive DevError where
  | devModeDisabled
  | unsupported
  | claimUnavailable
  deriving DecidableEq

/-- One execution run: its ordered segments, terminal exit condition, optional
journal, statistics, and the result of `session.claim()` (an external,
fallible computation, carried here as data). -/
structure Session where
  segments : List Segment
  exit_code : ExitCode
  journal : Option Journal
  stats : SessionStats
  claim : Except DevError Claim

/-- Result of proving: the receipt and the session statistics. -/
structure ProveInfo where
  receipt : Receipt
  stats : SessionStats
  deriving DecidableEq

/-- Verifier parameters passed to `prove_session`; the dev-mode prover binds
it as `_ctx` and never reads it. -/
structure VerifierContext where
  suites : List String
  dev_mode_permitted : Bool
  deriving DecidableEq

/-- The observable outcome of one backend invocation: how many dev-mode
warnings were printed to stderr, and the returned `Result`. -/
structure DevOutput (α : Type) where
  warnings : Nat
  result : Except DevError α

/-- Hash-suite identifier, guest-error-proving flag, and requested receipt
kind. -/
inductive ReceiptKind where
  | Composite
  | Succinct
  | Compact
  deriving DecidableEq

/-- Prover options (`ProverOpts`). -/
structure ProverOpts where
  hashfn : String
  prove_guest_errors : Bool
  receipt_kind : ReceiptKind
  deriving DecidableEq

/-- The build-time `disable-dev-mode` feature flag, `cfg!`-checked inside
`prove_session`, modelled as an explicit boolean parameter. -/
def DevModeProver.prove_session (disable_dev_mode : Bool)
    (_ctx : VerifierContext) (session : Session) : DevOutput ProveInfo :=
  { warnings := 1
    result :=
      if disable_dev_mode then
        .error .devModeDisabled
      else
        match session.claim with
        | .error e => .error e
        | .ok claim =>
          let receipt := Receipt.new (InnerReceipt.Fake claim)
            (session.journal.getD { bytes := [] }).bytes
          .ok { receipt := receipt, stats := session.stats } }

/-- `prove_segment` on the dev-mode backend: `unimplemented!`. -/
def DevModeProver.prove_segment (_ctx : VerifierContext) (_segment : Segment) :
    DevOutput SegmentReceipt :=
  { warnings := 0, result := .error .unsupported }

/-- `lift` on the dev-mode backend: `unimplemented!`. -/
def DevModeProver.lift (_receipt : SegmentReceipt) : DevOutput SuccinctReceipt :=
  { warnings := 0, result := .error .unsupported }

/-- `join` on the dev-mode backend: `unimplemented!`. -/
def DevModeProver.join (_a _b : SuccinctReceipt) : DevOutput SuccinctReceipt :=
  { warnings := 0, result := .error .unsupported }

/-- `resolve` on the dev-mode backend: `unimplemented!`. -/
def DevModeProver.resolve (_conditional _assumption : SuccinctReceipt) :
    DevOutput SuccinctReceipt :=
  { warnings := 0, result := .error .unsupported }

/-- `identity_p254` on the dev-mode backend: `unimplemented!`. -/
def DevModeProver.identity_p254 (_a : SuccinctReceipt) : DevOutput SuccinctReceipt :=
  { warnings := 0, result := .error .unsupported }

/-- `compress` on the dev-mode backend: re-wraps `receipt.claim()?` as a
`Fake` inner receipt around the input's journal bytes, ignoring `opts`. -/
def DevModeProver.compress (_opts : ProverOpts) (receipt : Receipt) :
    DevOutput Receipt :=
  { warnings := 0
    result :=
      match receipt.claim with
      | none => .error .claimUnavailable
      | some c => .ok (Receipt.new (InnerReceipt.Fake c) receipt.journal.bytes) }



/-- Modelled from the spec: the verification error taxonomy (image-id
mismatch, proof-integrity failure, conditional receipt, missing claim);
verification code lives outside the shown sources. -/
inductive VerificationError where
  | ImageVerificationError
  | InvalidProof
  | UnresolvedAssumptions
  | ClaimUnavailable
  deriving DecidableEq

/-- Modelled from the spec: cryptographic validity of the inner proof.  The
external cryptographic collaborator is a parameter `sealOk` judging proof
payloads; a `Composite` receipt is valid when every segment seal is, and a
`Fake` receipt is valid exactly when dev-mode verification is permitted. -/
def InnerReceipt.verify_integrity (dev_mode_permitted : Bool)
    (sealOk : List Nat → Bool) : InnerReceipt → Bool
  | .Composite segments => segments.all fun s => sealOk s.«seal»
  | .Succinct r => sealOk r.«seal»
  | .Compact r => sealOk r.«seal»
  | .Fake _ => dev_mode_permitted

/-- Modelled from the spec: `verify(receipt, expected_image_id)` recovers the
receipt claim, checks that the pre-state digest equals the expected image id,
checks cryptographic validity of the inner proof (dev-mode permission for a
`Fake` receipt), and rejects a claim with unresolved assumptions. -/
def Receipt.verify (dev_mode_permitted : Bool) (sealOk : List Nat → Bool)
    (r : Receipt) (image_id : Digest) : Except VerificationError Unit :=
  match r.claim with
  | none => .error .ClaimUnavailable
  | some c =>
    if c.pre ≠ image_id then .error .ImageVerificationError
    else if r.inner.verify_integrity dev_mode_permitted sealOk then
      if c.assumptions ≠ [] then .error .UnresolvedAssumptions else .ok ()
    else .error .InvalidProof

/-- Modelled from the spec: `prove_segment` of the real backend proves one
segment in isolation; the resulting receipt carries the index and exit code
of the segment it proves and attests to that segment claim (the seal itself
is cryptographic material, out of scope). -/
def ProverImpl.prove_segment (seg : Segment) : SegmentReceipt :=
  { index := seg.index, «seal» := [], claim := seg.claim,
    exit_code := seg.exit_code }

/-- Modelled from the spec: the real backend `prove_session` proves each
session segment in order and collects the per-segment receipts into a
`Composite` receipt around the session journal. -/
def ProverImpl.prove_session (session : Session) : Receipt :=
  { inner := InnerReceipt.Composite
      (session.segments.map ProverImpl.prove_segment)
    journal := session.journal.getD { bytes := [] } }

/-- The session invariants of the data model: segment indices are dense,
zero-based and increasing; every segment but the last exits with
`SystemSplit`; the last segment carries the session terminal exit code
(which also forces the segment list to be nonempty). -/
structure Session.WellFormed (s : Session) : Prop where
  indexed : s.segments.map Segment.index = List.range s.segments.length
  splits : s.segments.dropLast.map Segment.exit_code =
    List.replicate (s.segments.length - 1) ExitCode.SystemSplit
  last : (s.segments.getLast?).map Segment.exit_code = some s.exit_code

/-- The trivially accepting external seal judgement, used to instantiate
verification at concrete inputs. -/
def allSealsOk : List Nat → Bool :=
  fun _ => true

/-- Modelled from the spec: the binary word-oriented receipt encoding
(`to_vec` targets a `Vec<u32>`); primitive words are emitted directly. -/
def encNat (n : Nat) : List Nat := [n]

/-- Decoder for one word, consuming a prefix of the word stream. -/
def decNat : List Nat → Option (Nat × List Nat)
  | [] => none
  | n :: ws => some (n, ws)

/-- Concatenation of the encodings of a sequence of values. -/
def encSeq (enc : α → List Nat) : List α → List Nat
  | [] => []
  | a :: as => enc a ++ encSeq enc as

/-- Decode a known number of consecutive values. -/
def decSeq (dec : List Nat → Option (α × List Nat)) :
    Nat → List Nat → Option (List α × List Nat)
  | 0, ws => some ([], ws)
  | Nat.succ k, ws =>
    match dec ws with
    | none => none
    | some (a, ws1) =>
      match decSeq dec k ws1 with
      | none => none
      | some (as, ws2) => some (a :: as, ws2)

/-- Length-prefixed encoding of a list of values. -/
def encList (enc : α → List Nat) (xs : List α) : List Nat :=
  xs.length :: encSeq enc xs

/-- Decoder for a length-prefixed list. -/
def decList (dec : List Nat → Option (α × List Nat)) (ws : List Nat) :
    Option (List α × List Nat) :=
  match decNat ws with
  | none => none
  | some (n, ws1) => decSeq dec n ws1

/-- Encoding of a digest as its length-prefixed word list. -/
def encDigest (d : Digest) : List Nat := encList encNat d

/-- Decoder for a digest. -/
def decDigest (ws : List Nat) : Option (Digest × List Nat) :=
  decList decNat ws

/-- Tagged encoding of an exit code. -/
def encExitCode : ExitCode → List Nat
  | .Halted c => [0, c]
  | .Paused c => [1, c]
  | .SystemSplit => [2]

/-- Decoder for an exit code. -/
def decExitCode : List Nat → Option (ExitCode × List Nat)
  | 0 :: c :: ws => some (.Halted c, ws)
  | 1 :: c :: ws => some (.Paused c, ws)
  | 2 :: ws => some (.SystemSplit, ws)
  | _ => none

/-- Encoding of a claim: its five digest/exit-code fields followed by the
assumption digest list. -/
def encClaim (c : Claim) : List Nat :=
  encDigest c.pre ++ encDigest c.post ++ encExitCode c.exit_code ++
    encDigest c.input ++ encDigest c.output ++ encList encDigest c.assumptions

/-- Decoder for a claim. -/
def decClaim (ws : List Nat) : Option (Claim × List Nat) :=
  match decDigest ws with
  | none => none
  | some (pre, ws1) =>
    match decDigest ws1 with
    | none => none
    | some (post, ws2) =>
      match decExitCode ws2 with
      | none => none
      | some (ec, ws3) =>
        match decDigest ws3 with
        | none => none
        | some (input, ws4) =>
          match decDigest ws4 with
          | none => none
          | some (output, ws5) =>
            match decList decDigest ws5 with
            | none => none
            | some (asms, ws6) =>
              some ({ pre := pre, post := post, exit_code := ec,
                      input := input, output := output,
                      assumptions := asms }, ws6)

/-- Encoding of a segment receipt: index, seal, claim, exit code. -/
def encSegmentReceipt (r : SegmentReceipt) : List Nat :=
  encNat r.index ++ encList encNat r.«seal» ++ encClaim r.claim ++
    encExitCode r.exit_code

/-- Decoder for a segment receipt. -/
def decSegmentReceipt (ws : List Nat) : Option (SegmentReceipt × List Nat) :=
  match decNat ws with
  | none => none
  | some (ix, ws1) =>
    match decList decNat ws1 with
    | none => none
    | some (sl, ws2) =>
      match decClaim ws2 with
      | none => none
      | some (c, ws3) =>
        match decExitCode ws3 with
        | none => none
        | some (ec, ws4) =>
          some ({ index := ix, «seal» := sl, claim := c, exit_code := ec }, ws4)

/-- Encoding of a succinct receipt: seal then claim. -/
def encSuccinctReceipt (r : SuccinctReceipt) : List Nat :=
  encList encNat r.«seal» ++ encClaim r.claim

/-- Decoder for a succinct receipt. -/
def decSuccinctReceipt (ws : List Nat) : Option (SuccinctReceipt × List Nat) :=
  match decList decNat ws with
  | none => none
  | some (sl, ws1) =>
    match decClaim ws1 with
    | none => none
    | some (c, ws2) => some ({ «seal» := sl, claim := c }, ws2)

/-- Encoding of a compact (SNARK-wrapped) receipt: seal then claim. -/
def encCompactReceipt (r : CompactReceipt) : List Nat :=
  encList encNat r.«seal» ++ encClaim r.claim

/-- Decoder for a compact receipt. -/
def decCompactReceipt (ws : List Nat) : Option (CompactReceipt × List Nat) :=
  match decList decNat ws with
  | none => none
  | some (sl, ws1) =>
    match decClaim ws1 with
    | none => none
    | some (c, ws2) => some ({ «seal» := sl, claim := c }, ws2)

/-- Tagged encoding of the inner receipt union. -/
def encInnerReceipt : InnerReceipt → List Nat
  | .Composite segs => 0 :: encList encSegmentReceipt segs
  | .Succinct r => 1 :: encSuccinctReceipt r
  | .Compact r => 2 :: encCompactReceipt r
  | .Fake c => 3 :: encClaim c

/-- Decoder for the inner receipt union. -/
def decInnerReceipt : List Nat → Option (InnerReceipt × List Nat)
  | 0 :: ws =>
    match decList decSegmentReceipt ws with
    | none => none
    | some (segs, ws1) => some (.Composite segs, ws1)
  | 1 :: ws =>
    match decSuccinctReceipt ws with
    | none => none
    | some (r, ws1) => some (.Succinct r, ws1)
  | 2 :: ws =>
    match decCompactReceipt ws with
    | none => none
    | some (r, ws1) => some (.Compact r, ws1)
  | 3 :: ws =>
    match decClaim ws with
    | none => none
    | some (c, ws1) => some (.Fake c, ws1)
  | _ => none

/-- Serialization of a receipt to its word stream: inner proof then journal
bytes. -/
def encReceipt (r : Receipt) : List Nat :=
  encInnerReceipt r.inner ++ encList encNat r.journal.bytes

/-- Deserialization of a receipt from a word stream. -/
def decReceipt (ws : List Nat) : Option (Receipt × List Nat) :=
  match decInnerReceipt ws with
  | none => none
  | some (inner, ws1) =>
    match decList decNat ws1 with
    | none => none
    | some (bytes, ws2) =>
      some ({ inner := inner, journal := { bytes := bytes } }, ws2)

/-- Claim C1: with the build-time `disable-dev-mode` switch active,
`prove_session` fails with the dev-mode-disabled error for every verifier
context and every session; it never returns a receipt.  The deploy-time
signal (`RISC0_DEV_MODE`) plays no role: the check is unconditional. -/
theorem prove_session_disabled_always_fails
    (ctx : VerifierContext) (session : Session) :
    (DevModeProver.prove_session true ctx session).result =
      Except.error DevError.devModeDisabled :=
  rfl

/-- Claim C2: `compress` on a receipt whose inner variant is `Fake` returns,
for every requested receipt kind, a receipt that is again `Fake` with the
same claim and the same journal bytes; a fake receipt is never upgraded. -/
theorem compress_fake_stays_fake (opts : ProverOpts) (c : Claim) (j : Journal) :
    (DevModeProver.compress opts { inner := InnerReceipt.Fake c, journal := j }).result =
      Except.ok { inner := InnerReceipt.Fake c, journal := j } :=
  rfl

/-- Claim C3: with the build-time disable switch inactive, `prove_session` on
a session whose `claim()` succeeds returns `Ok` with a `Fake` receipt carrying
exactly the session claim, the session's journal bytes (empty when the journal
is absent), and the session's statistics. -/
theorem prove_session_fake_receipt (ctx : VerifierContext)
    (segs : List Segment) (ec : ExitCode) (j : Option Journal)
    (st : SessionStats) (c : Claim) :
    (DevModeProver.prove_session false ctx
        { segments := segs, exit_code := ec, journal := j, stats := st,
          claim := Except.ok c }).result =
      Except.ok
        { receipt := { inner := InnerReceipt.Fake c,
                       journal := j.getD { bytes := [] } },
          stats := st } :=
  rfl

/-- Claim C4: the five structurally unsupported operations of the dev-mode
backend (`prove_segment`, `lift`, `join`, `resolve`, `identity_p254`) fail
with the unsupported-operation error on every input and never return a
segment or succinct receipt. -/
theorem dev_mode_unsupported_ops_fail (ctx : VerifierContext) (seg : Segment)
    (sr : SegmentReceipt) (a b cond asm p : SuccinctReceipt) :
    (DevModeProver.prove_segment ctx seg).result =
        Except.error DevError.unsupported ∧
      (DevModeProver.lift sr).result = Except.error DevError.unsupported ∧
      (DevModeProver.join a b).result = Except.error DevError.unsupported ∧
      (DevModeProver.resolve cond asm).result =
        Except.error DevError.unsupported ∧
      (DevModeProver.identity_p254 p).result =
        Except.error DevError.unsupported :=
  ⟨rfl, rfl, rfl, rfl, rfl⟩

/-- Claim C5 (counterexample): not every invocation of the dev-mode backend
emits the warning.  This concrete `compress` invocation emits none. -/
theorem compress_emits_no_warning_cex :
    (DevModeProver.compress
        { hashfn := "sha-256", prove_guest_errors := false,
          receipt_kind := ReceiptKind.Compact }
        { inner := InnerReceipt.Fake
            { pre := [], post := [], exit_code := ExitCode.Halted 0,
              input := [], output := [], assumptions := [] },
          journal := { bytes := [] } }).warnings = 0 :=
  rfl

/-- Claim C5 (amended): `prove_session` emits the dev-mode warning exactly
once on every invocation, before the disable check, so independently of
success or failure; `compress` emits no warning. -/
theorem dev_mode_warning_on_prove_session :
    (∀ (d : Bool) (ctx : VerifierContext) (s : Session),
        (DevModeProver.prove_session d ctx s).warnings = 1) ∧
      (∀ (opts : ProverOpts) (r : Receipt),
        (DevModeProver.compress opts r).warnings = 0) :=
  ⟨fun _ _ _ => rfl, fun _ _ => rfl⟩

/-- Claim C9: `prove_session` never inspects its verifier context: any two
contexts give identical outputs (same warnings, same result) on every session
and either state of the build-time switch. -/
theorem prove_session_ignores_ctx (d : Bool) (ctx1 ctx2 : VerifierContext)
    (s : Session) :
    DevModeProver.prove_session d ctx1 s = DevModeProver.prove_session d ctx2 s :=
  rfl

/-- Claim C10: with the disable switch inactive, a session with an absent
journal whose `claim()` succeeds is proved successfully, and the resulting
receipt carries the empty byte string as journal. -/
theorem prove_session_absent_journal (ctx : VerifierContext)
    (segs : List Segment) (ec : ExitCode) (st : SessionStats) (c : Claim) :
    (DevModeProver.prove_session false ctx
        { segments := segs, exit_code := ec, journal := none, stats := st,
          claim := Except.ok c }).result =
      Except.ok
        { receipt := { inner := InnerReceipt.Fake c, journal := { bytes := [] } },
          stats := st } :=
  rfl

/-- Claim C6: whenever the pre-state digest of a receipt claim differs from
the expected image id, verification fails with the image-verification error,
never succeeding, whatever the dev-mode permission and the cryptographic
judgement of the seals. -/
theorem verify_image_id_mismatch (dm : Bool) (sealOk : List Nat → Bool)
    (r : Receipt) (image_id : Digest) (c : Claim)
    (hc : r.claim = some c) (hne : c.pre ≠ image_id) :
    Receipt.verify dm sealOk r image_id =
      Except.error VerificationError.ImageVerificationError := by
  unfold Receipt.verify
  rw [hc]
  simp [hne]

/-- Witness for claim C6: a concrete fake receipt whose claim pre-state
digest is `[1]` fails verification against image id `[2]` with the
image-verification error. -/
theorem verify_image_id_mismatch_witness :
    Receipt.verify true allSealsOk
        { inner := InnerReceipt.Fake
            { pre := [1], post := [], exit_code := ExitCode.Halted 0,
              input := [], output := [], assumptions := [] },
          journal := { bytes := [] } } [2] =
      Except.error VerificationError.ImageVerificationError :=
  verify_image_id_mismatch true allSealsOk _ [2]
    { pre := [1], post := [], exit_code := ExitCode.Halted 0,
      input := [], output := [], assumptions := [] }
    rfl (by decide)

/-- Claim C7: the composite receipt derived from a well-formed session with
N segments has exactly N segment receipts, indexed 0..N-1 in order; every
receipt but the last carries exit code `SystemSplit`, and the last carries
the session terminal exit code. -/
theorem composite_segment_indexing (s : Session) (h : s.WellFormed)
    (rs : List SegmentReceipt)
    (hrs : (ProverImpl.prove_session s).inner = InnerReceipt.Composite rs) :
    rs.length = s.segments.length ∧
      rs.map SegmentReceipt.index = List.range s.segments.length ∧
      rs.dropLast.map SegmentReceipt.exit_code =
        List.replicate (s.segments.length - 1) ExitCode.SystemSplit ∧
      (rs.getLast?).map SegmentReceipt.exit_code = some s.exit_code := by
  have hrs2 : rs = s.segments.map ProverImpl.prove_segment := by
    have := hrs
    unfold ProverImpl.prove_session at this
    exact (InnerReceipt.Composite.injEq _ _).mp this |>.symm
  subst hrs2
  have hix : SegmentReceipt.index ∘ ProverImpl.prove_segment = Segment.index := by
    funext seg
    rfl
  have hec : SegmentReceipt.exit_code ∘ ProverImpl.prove_segment =
      Segment.exit_code := by
    funext seg
    rfl
  refine ⟨List.length_map _ _, ?_, ?_, ?_⟩
  · rw [List.map_map, hix, h.indexed]
  · rw [← List.map_dropLast, List.map_map, hec, h.splits]
  · rw [List.getLast?_map, Option.map_map, hec, h.last]

/-- Witness for claim C7: a concrete well-formed two-segment session (split
then halt) yields a composite receipt with receipts indexed 0 and 1, the
first exiting with `SystemSplit` and the last with the session exit code. -/
theorem composite_segment_indexing_witness :
    [ ({ index := 0, «seal» := [],
         claim := { pre := [], post := [], exit_code := ExitCode.SystemSplit,
                    input := [], output := [], assumptions := [] },
         exit_code := ExitCode.SystemSplit } : SegmentReceipt),
      ({ index := 1, «seal» := [],
         claim := { pre := [], post := [], exit_code := ExitCode.Halted 0,
                    input := [], output := [], assumptions := [] },
         exit_code := ExitCode.Halted 0 } : SegmentReceipt) ].length = 2 ∧
      [ ({ index := 0, «seal» := [],
           claim := { pre := [], post := [], exit_code := ExitCode.SystemSplit,
                      input := [], output := [], assumptions := [] },
           exit_code := ExitCode.SystemSplit } : SegmentReceipt),
        ({ index := 1, «seal» := [],
           claim := { pre := [], post := [], exit_code := ExitCode.Halted 0,
                      input := [], output := [], assumptions := [] },
           exit_code := ExitCode.Halted 0 } : SegmentReceipt) ].map
          SegmentReceipt.index = List.range 2 ∧
      [ ({ index := 0, «seal» := [],
           claim := { pre := [], post := [], exit_code := ExitCode.SystemSplit,
                      input := [], output := [], assumptions := [] },
           exit_code := ExitCode.SystemSplit } : SegmentReceipt),
        ({ index := 1, «seal» := [],
           claim := { pre := [], post := [], exit_code := ExitCode.Halted 0,
                      input := [], output := [], assumptions := [] },
           exit_code := ExitCode.Halted 0 } : SegmentReceipt) ].dropLast.map
          SegmentReceipt.exit_code = List.replicate 1 ExitCode.SystemSplit ∧
      ([ ({ index := 0, «seal» := [],
            claim := { pre := [], post := [], exit_code := ExitCode.SystemSplit,
                       input := [], output := [], assumptions := [] },
            exit_code := ExitCode.SystemSplit } : SegmentReceipt),
         ({ index := 1, «seal» := [],
            claim := { pre := [], post := [], exit_code := ExitCode.Halted 0,
                       input := [], output := [], assumptions := [] },
            exit_code := ExitCode.Halted 0 } : SegmentReceipt) ].getLast?).map
          SegmentReceipt.exit_code = some (ExitCode.Halted 0) :=
  composite_segment_indexing
    { segments :=
        [ { index := 0, exit_code := ExitCode.SystemSplit,
            claim := { pre := [], post := [], exit_code := ExitCode.SystemSplit,
                       input := [], output := [], assumptions := [] } },
          { index := 1, exit_code := ExitCode.Halted 0,
            claim := { pre := [], post := [], exit_code := ExitCode.Halted 0,
                       input := [], output := [], assumptions := [] } } ],
      exit_code := ExitCode.Halted 0, journal := none,
      stats := { segments := 2, total_cycles := 0, user_cycles := 0 },
      claim := Except.error DevError.claimUnavailable }
    { indexed := by decide, splits := by decide, last := by decide }
    _ rfl

/-- One word decodes back. -/
theorem decNat_enc (n : Nat) (rest : List Nat) :
    decNat (encNat n ++ rest) = some (n, rest) :=
  rfl

/-- A counted sequence decodes back. -/
theorem decSeq_enc {α : Type} (dec : List Nat → Option (α × List Nat))
    (enc : α → List Nat)
    (H : ∀ a rest, dec (enc a ++ rest) = some (a, rest)) :
    ∀ (xs : List α) (rest : List Nat),
      decSeq dec xs.length (encSeq enc xs ++ rest) = some (xs, rest) := by
  intro xs
  induction xs with
  | nil => intro rest; simp [decSeq, encSeq]
  | cons a as ih =>
    intro rest
    simp [decSeq, encSeq, List.append_assoc, H, ih]

/-- A length-prefixed list decodes back. -/
theorem decList_enc {α : Type} (dec : List Nat → Option (α × List Nat))
    (enc : α → List Nat)
    (H : ∀ a rest, dec (enc a ++ rest) = some (a, rest)) :
    ∀ (xs : List α) (rest : List Nat),
      decList dec (encList enc xs ++ rest) = some (xs, rest) := by
  intro xs rest
  simp [decList, encList, decNat, decSeq_enc dec enc H]

/-- A digest decodes back. -/
theorem decDigest_enc (d : Digest) (rest : List Nat) :
    decDigest (encDigest d ++ rest) = some (d, rest) :=
  decList_enc decNat encNat decNat_enc d rest

/-- An exit code decodes back. -/
theorem decExitCode_enc (ec : ExitCode) (rest : List Nat) :
    decExitCode (encExitCode ec ++ rest) = some (ec, rest) := by
  cases ec <;> rfl

/-- A claim decodes back. -/
theorem decClaim_enc (c : Claim) (rest : List Nat) :
    decClaim (encClaim c ++ rest) = some (c, rest) := by
  obtain ⟨pre, post, ec, input, output, asms⟩ := c
  simp [encClaim, decClaim, List.append_assoc, decDigest_enc, decExitCode_enc,
    decList_enc decDigest encDigest decDigest_enc]

/-- A segment receipt decodes back. -/
theorem decSegmentReceipt_enc (r : SegmentReceipt) (rest : List Nat) :
    decSegmentReceipt (encSegmentReceipt r ++ rest) = some (r, rest) := by
  obtain ⟨ix, sl, c, ec⟩ := r
  simp [encSegmentReceipt, decSegmentReceipt, List.append_assoc, decNat,
    encNat, decClaim_enc, decExitCode_enc, decList_enc decNat encNat decNat_enc]

/-- A succinct receipt decodes back. -/
theorem decSuccinctReceipt_enc (r : SuccinctReceipt) (rest : List Nat) :
    decSuccinctReceipt (encSuccinctReceipt r ++ rest) = some (r, rest) := by
  obtain ⟨sl, c⟩ := r
  simp [encSuccinctReceipt, decSuccinctReceipt, List.append_assoc,
    decClaim_enc, decList_enc decNat encNat decNat_enc]

/-- A compact receipt decodes back. -/
theorem decCompactReceipt_enc (r : CompactReceipt) (rest : List Nat) :
    decCompactReceipt (encCompactReceipt r ++ rest) = some (r, rest) := by
  obtain ⟨sl, c⟩ := r
  simp [encCompactReceipt, decCompactReceipt, List.append_assoc,
    decClaim_enc, decList_enc decNat encNat decNat_enc]

/-- An inner receipt decodes back. -/
theorem decInnerReceipt_enc (inner : InnerReceipt) (rest : List Nat) :
    decInnerReceipt (encInnerReceipt inner ++ rest) = some (inner, rest) := by
  cases inner with
  | Composite segs =>
    simp [encInnerReceipt, decInnerReceipt,
      decList_enc decSegmentReceipt encSegmentReceipt decSegmentReceipt_enc]
  | Succinct r => simp [encInnerReceipt, decInnerReceipt, decSuccinctReceipt_enc]
  | Compact r => simp [encInnerReceipt, decInnerReceipt, decCompactReceipt_enc]
  | Fake c => simp [encInnerReceipt, decInnerReceipt, decClaim_enc]

/-- A whole receipt decodes back from any surrounding stream. -/
theorem decReceipt_enc (r : Receipt) (rest : List Nat) :
    decReceipt (encReceipt r ++ rest) = some (r, rest) := by
  obtain ⟨inner, bytes⟩ := r
  simp [encReceipt, decReceipt, List.append_assoc, decInnerReceipt_enc,
    decList_enc decNat encNat decNat_enc]

/-- Claim C8: deserializing the word-oriented serialization of any receipt
yields the same receipt (with the stream fully consumed), and the
deserialized receipt verifies exactly as the original against every image id,
dev-mode permission and seal judgement. -/
theorem receipt_serde_roundtrip (r : Receipt) :
    decReceipt (encReceipt r) = some (r, ([] : List Nat)) ∧
      ∀ (dm : Bool) (sealOk : List Nat → Bool) (image_id : Digest),
        (decReceipt (encReceipt r)).map
            (fun p => Receipt.verify dm sealOk p.1 image_id) =
          some (Receipt.verify dm sealOk r image_id) := by
  have h : decReceipt (encReceipt r) = some (r, ([] : List Nat)) := by
    have h2 := decReceipt_enc r []
    rwa [List.append_nil] at h2
  exact ⟨h, fun dm sealOk image_id => by rw [h]; rfl⟩

end Risc0
